import Mathlib

/-!
Shallow embedding of the NESquick 6502 CPU core (src/src/cpu/*.rs).

Machine integers are modelled as `Nat` with explicit reductions:
`x as u8` becomes `x % 256`, `(x >> 8) as u8` becomes `x / 256 % 256`,
`u8`/`u16` wrapping arithmetic becomes arithmetic followed by `% 256` /
`% 65536`.  The `Box<dyn Mapper>` cartridge handle is modelled by a state
type `μ` together with a `MapperOps μ` record supplying `read`/`write`,
mirroring the Rust trait object.  RAM arrays are total functions
`Nat → Nat` updated pointwise.
-/

namespace NESquick

/-- Status register (src/cpu/registers.rs, `struct Status`). -/
structure Status where
  carry : Bool
  zero : Bool
  interrupt_disable : Bool
  decimal : Bool
  overflow : Bool
  negative : Bool
deriving DecidableEq, Repr

/-- Rust `Status::get_byte` (registers.rs lines 14-22). -/
def Status.get_byte (s : Status) : Nat :=
  (cond s.carry 1 0)
    ||| (cond s.zero 1 0) <<< 1
    ||| (cond s.interrupt_disable 1 0) <<< 2
    ||| (cond s.decimal 1 0) <<< 3
    ||| (cond s.overflow 1 0) <<< 6
    ||| (cond s.negative 1 0) <<< 7

/-- Rust `Status::set_byte` (registers.rs lines 24-32): each live flag is decoded
from its bit; bits 4 and 5 are ignored. -/
def Status.set_byte (status : Nat) : Status :=
  { carry := status &&& 0b00000001 == 1
    zero := (status &&& 0b00000010) >>> 1 == 1
    interrupt_disable := (status &&& 0b00000100) >>> 2 == 1
    decimal := (status &&& 0b00001000) >>> 3 == 1
    overflow := (status &&& 0b01000000) >>> 6 == 1
    negative := (status &&& 0b10000000) >>> 7 == 1 }

/-- Register file (registers.rs, `struct Registers`). -/
structure Registers where
  a : Nat
  x : Nat
  y : Nat
  p : Status
  pc : Nat
  stack_pointer : Nat
deriving DecidableEq, Repr

/-- Rust `Registers::new` (registers.rs lines 47-64). -/
def Registers.new : Registers :=
  { a := 0
    x := 0
    y := 0
    p := { carry := false, zero := false, interrupt_disable := true,
           decimal := false, overflow := false, negative := false }
    pc := 0x8000
    stack_pointer := 0xFD }

/-- The sink selected by the address router: which `AddressSpace` object
`Cpu::corresponding_address_space` returns (address_space.rs). -/
inductive Sink where
  | zeroPage (index : Nat)
  | stackPage (index : Nat)
  | ram (address : Nat)
  | ppu (index : Nat)
  | apu (index : Nat)
  | ioRegs (index : Nat)
  | cartridge (address : Nat)
  | null
deriving DecidableEq, Repr

/-- Cartridge mapper operations: the `Mapper` trait (cartridge.rs lines 3-7)
over an abstract mapper state `μ`. -/
structure MapperOps (μ : Type) where
  read : μ → Nat → Nat
  write : μ → Nat → Nat → μ

/-- Rust `DummyMapper` (cartridge.rs lines 24-33): reads 0, discards writes. -/
def DummyMapper : MapperOps Unit :=
  { read := fun _ _ => 0, write := fun s _ _ => s }

/-- CPU state (mod.rs, `struct Cpu`), over mapper state `μ`. -/
structure Cpu (μ : Type) where
  registers : Registers
  cycles : Nat
  wait_cycles : Nat
  zero_page_ram : Nat → Nat
  stack : Nat → Nat
  internal_ram : Nat → Nat
  cartridge : μ

/-- Rust `Cpu::new_dummy` (mod.rs lines 66-77). -/
def Cpu.new_dummy : Cpu Unit :=
  { registers := Registers.new
    cycles := 7
    wait_cycles := 0
    zero_page_ram := fun _ => 0
    stack := fun _ => 0
    internal_ram := fun _ => 0
    cartridge := () }

/-- Rust `Cpu::corresponding_address_space` (mod.rs lines 94-112), with the match
arms kept in source order (the guards of a Rust `match` are tested top to
bottom, so an arm is reachable only where every earlier guard failed). -/
def Cpu.corresponding_address_space (address : Nat) : Sink :=
  let first_nibble := address / 256 % 256
  let second_nibble := address % 256
  if first_nibble ≤ 0x1F then
    if first_nibble % 0x08 = 0x00 then .zeroPage second_nibble
    else if first_nibble % 0x08 = 0x01 then .stackPage second_nibble
    else if 0x02 ≤ first_nibble % 0x08 ∧ first_nibble % 0x08 ≤ 0x07 then
      .ram (address % 0x0800 - 0x0200)
    else .null
  else if first_nibble ≤ 0x40 then .ppu (second_nibble % 0x08)
  else if first_nibble = 0x40 ∧ second_nibble ≤ 0x13 then .apu second_nibble
  else if first_nibble = 0x40 ∧ second_nibble ≤ 0x17 then .ioRegs second_nibble
  else if first_nibble = 0x40 ∧ second_nibble ≤ 0x1F then .null
  else .cartridge address

variable {μ : Type}

/-- Rust `Cpu::load` (mod.rs lines 132-137) together with the `AddressSpace::read`
implementations of address_space.rs: stub sinks read 0. -/
def Cpu.load (m : MapperOps μ) (c : Cpu μ) (address : Nat) : Nat :=
  match Cpu.corresponding_address_space address with
  | .zeroPage index => c.zero_page_ram index
  | .stackPage index => c.stack index
  | .ram a => c.internal_ram a
  | .ppu _ => 0
  | .apu _ => 0
  | .ioRegs _ => 0
  | .cartridge a => m.read c.cartridge a
  | .null => 0

/-- Rust `Cpu::write` (mod.rs lines 139-144) together with the
`AddressSpace::write` implementations: stub sinks discard the data. -/
def Cpu.write (m : MapperOps μ) (c : Cpu μ) (address data : Nat) : Cpu μ :=
  match Cpu.corresponding_address_space address with
  | .zeroPage index =>
      { c with zero_page_ram := fun i => if i = index then data else c.zero_page_ram i }
  | .stackPage index =>
      { c with stack := fun i => if i = index then data else c.stack i }
  | .ram a =>
      { c with internal_ram := fun i => if i = a then data else c.internal_ram i }
  | .ppu _ => c
  | .apu _ => c
  | .ioRegs _ => c
  | .cartridge a => { c with cartridge := m.write c.cartridge a data }
  | .null => c

/-- Rust `Cpu::push` (mod.rs lines 114-118): write at `0x0100 | S`, then
`S.wrapping_sub(1)`. -/
def Cpu.push (m : MapperOps μ) (c : Cpu μ) (data : Nat) : Cpu μ :=
  let c := Cpu.write m c (0x0100 ||| c.registers.stack_pointer) data
  { c with registers :=
      { c.registers with stack_pointer := (c.registers.stack_pointer + 255) % 256 } }

/-- Rust `Cpu::top` (mod.rs lines 120-123): read at `0x0100 | S.wrapping_add(1)`. -/
def Cpu.top (m : MapperOps μ) (c : Cpu μ) : Nat :=
  Cpu.load m c (0x0100 ||| (c.registers.stack_pointer + 1) % 256)

/-- Rust `Cpu::pop` (mod.rs lines 125-130). -/
def Cpu.pop (m : MapperOps μ) (c : Cpu μ) : Nat × Cpu μ :=
  (Cpu.top m c,
   { c with registers :=
       { c.registers with stack_pointer := (c.registers.stack_pointer + 1) % 256 } })

/-- Rust `Cpu::fetch` (mod.rs lines 146-155): load the byte at PC, then PC + 1
(16-bit). -/
def Cpu.fetch (m : MapperOps μ) (c : Cpu μ) : Nat × Cpu μ :=
  (Cpu.load m c c.registers.pc,
   { c with registers := { c.registers with pc := (c.registers.pc + 1) % 65536 } })

/-- Rust `enum Interrupts` (mod.rs lines 35-41). -/
inductive Interrupts where
  | brk
  | reset
  | irq
  | nmi
deriving DecidableEq, Repr

/-- Rust `enum InstructionResult` (mod.rs lines 43-49). -/
inductive InstructionResult where
  | ok
  | nop
  | branch (cycles : Nat)
  | oamdma
deriving DecidableEq, Repr

/-- Rust `Cpu::interrupt` (mod.rs lines 157-173): push PC high, PC low, packed
status ORed with the per-kind B flag; reload PC from the vector; finally
`p.set_byte(side_effect_flags)`. -/
def Cpu.interrupt (m : MapperOps μ) (c : Cpu μ) (kind : Interrupts) : Cpu μ :=
  let vbs : Nat × Nat × Nat :=
    match kind with
    | .brk => (0xFFFE, 0b00110000, 0b00000100)
    | .reset => (0xFFFC, 0b00000000, 0b00000000)
    | .irq => (0xFFFE, 0b00100000, 0b00000100)
    | .nmi => (0xFFFA, 0b00100000, 0b00000100)
  let vector := vbs.1
  let b_flag := vbs.2.1
  let side_effect_flags := vbs.2.2
  let address := c.registers.pc
  let c := Cpu.push m c (address / 256 % 256)
  let c := Cpu.push m c (address % 256)
  let c := Cpu.push m c (c.registers.p.get_byte ||| b_flag)
  let c := { c with registers := { c.registers with
      pc := Cpu.load m c vector ||| (Cpu.load m c (vector + 1)) <<< 8 } }
  { c with registers := { c.registers with p := Status.set_byte side_effect_flags } }

/-- Rust `Cpu::set_pc` (mod.rs line 175). -/
def Cpu.set_pc (c : Cpu μ) (address : Nat) : Cpu μ :=
  { c with registers := { c.registers with pc := address } }

/-- Rust `Cpu::new` (mod.rs lines 79-92): dummy-style construction followed by
`pc = load(0xFFFE) | load(0xFFFF) << 8`. -/
def Cpu.new (m : MapperOps μ) (cartridge : μ) : Cpu μ :=
  let cpu : Cpu μ :=
    { registers := Registers.new
      cycles := 7
      wait_cycles := 0
      zero_page_ram := fun _ => 0
      stack := fun _ => 0
      internal_ram := fun _ => 0
      cartridge := cartridge }
  { cpu with registers := { cpu.registers with
      pc := Cpu.load m cpu 0xFFFE ||| (Cpu.load m cpu 0xFFFF) <<< 8 } }

/-- Register bounds maintained by the Rust types (`u8` fields, `u16` PC). -/
def Cpu.Wf (c : Cpu μ) : Prop :=
  c.registers.a < 256 ∧ c.registers.x < 256 ∧ c.registers.y < 256 ∧
    c.registers.stack_pointer < 256 ∧ c.registers.pc < 65536

instance (c : Cpu μ) : Decidable c.Wf := by
  unfold Cpu.Wf; infer_instance

/-- Addressing-mode handles (addressing_mode.rs): one variant per struct
(`Implicit`, `Accumulator`, `Immediate`, `Relative`, `MemoryAccess`), each
holding the data its Rust struct stores. -/
inductive AddressingMode where
  | implicit
  | accumulator
  | immediate (value : Nat)
  | relative (offset : Nat)
  | memoryAccess (address : Nat) (page_boundary_crossed : Bool)
deriving DecidableEq, Repr

/-- Rust `AddressingMode::read` (addressing_mode.rs). -/
def AddressingMode.read (m : MapperOps μ) (c : Cpu μ) : AddressingMode → Nat
  | .implicit => 0
  | .accumulator => c.registers.a
  | .immediate value => value
  | .relative offset => offset
  | .memoryAccess address _ => Cpu.load m c address

/-- Rust `AddressingMode::write` (addressing_mode.rs): Accumulator writes A,
MemoryAccess writes memory, the rest discard. -/
def AddressingMode.write (m : MapperOps μ) (c : Cpu μ) (data : Nat) :
    AddressingMode → Cpu μ
  | .accumulator => { c with registers := { c.registers with a := data } }
  | .memoryAccess address _ => Cpu.write m c address data
  | _ => c

/-- Rust `AddressingMode::address` (addressing_mode.rs): 0 except for
MemoryAccess. -/
def AddressingMode.address : AddressingMode → Nat
  | .memoryAccess address _ => address
  | _ => 0

/-- Rust `AddressingMode::page_boundary_crossed` (addressing_mode.rs). -/
def AddressingMode.page_boundary_crossed : AddressingMode → Bool
  | .memoryAccess _ page_boundary_crossed => page_boundary_crossed
  | _ => false

/-- Rust `Immediate::new` (addressing_mode.rs lines 33-39). -/
def Immediate.new (m : MapperOps μ) (c : Cpu μ) : AddressingMode × Cpu μ :=
  let fc := Cpu.fetch m c
  (.immediate fc.1, fc.2)

/-- Rust `Relative::new` (addressing_mode.rs lines 52-58). -/
def Relative.new (m : MapperOps μ) (c : Cpu μ) : AddressingMode × Cpu μ :=
  let fc := Cpu.fetch m c
  (.relative fc.1, fc.2)

/-- Rust `MemoryAccess::new_zero_page` (addressing_mode.rs lines 75-78). -/
def MemoryAccess.new_zero_page (m : MapperOps μ) (c : Cpu μ) :
    AddressingMode × Cpu μ :=
  let fc := Cpu.fetch m c
  (.memoryAccess fc.1 false, fc.2)

/-- Rust `MemoryAccess::new_indexed_zero_page` (addressing_mode.rs line 80):
`fetch().wrapping_add(index)` stays in the zero page. -/
def MemoryAccess.new_indexed_zero_page (m : MapperOps μ) (c : Cpu μ)
    (index : Nat) : AddressingMode × Cpu μ :=
  let fc := Cpu.fetch m c
  (.memoryAccess ((fc.1 + index) % 256) false, fc.2)

/-- Rust `MemoryAccess::new_absolute` (addressing_mode.rs lines 83-86): low byte
first, then high byte. -/
def MemoryAccess.new_absolute (m : MapperOps μ) (c : Cpu μ) :
    AddressingMode × Cpu μ :=
  let lo := Cpu.fetch m c
  let hi := Cpu.fetch m lo.2
  (.memoryAccess (lo.1 ||| hi.1 <<< 8) false, hi.2)

/-- Rust `MemoryAccess::new_indexed_absolute` (addressing_mode.rs lines 88-94). -/
def MemoryAccess.new_indexed_absolute (m : MapperOps μ) (c : Cpu μ)
    (index : Nat) : AddressingMode × Cpu μ :=
  let lo := Cpu.fetch m c
  let hi := Cpu.fetch m lo.2
  let address := lo.1 ||| hi.1 <<< 8
  let page_boundary_crossed :=
    decide ((address + index) % 65536 &&& 0xFF00 ≠ address &&& 0xFF00)
  (.memoryAccess ((address + index) % 65536) page_boundary_crossed, hi.2)

/-- Rust `MemoryAccess::new_indirect` (addressing_mode.rs lines 97-103). -/
def MemoryAccess.new_indirect (m : MapperOps μ) (c : Cpu μ) :
    AddressingMode × Cpu μ :=
  let lo := Cpu.fetch m c
  let hi := Cpu.fetch m lo.2
  let indirect_address := lo.1 ||| hi.1 <<< 8
  let address_lsb := Cpu.load m hi.2 indirect_address
  let address_msb := (Cpu.load m hi.2 (indirect_address + 1)) <<< 8
  (.memoryAccess (address_lsb ||| address_msb) false, hi.2)

/-- Rust `MemoryAccess::new_indexed_indirect` (addressing_mode.rs lines 105-111):
the pointer wraps inside the zero page. -/
def MemoryAccess.new_indexed_indirect (m : MapperOps μ) (c : Cpu μ)
    (index : Nat) : AddressingMode × Cpu μ :=
  let fc := Cpu.fetch m c
  let indirect_address := (fc.1 + index) % 256
  let address_lsb := Cpu.load m fc.2 indirect_address
  let address_msb := (Cpu.load m fc.2 ((indirect_address + 1) % 256)) <<< 8
  (.memoryAccess (address_lsb ||| address_msb) false, fc.2)

/-- Rust `MemoryAccess::new_indirect_indexed` (addressing_mode.rs lines 113-121). -/
def MemoryAccess.new_indirect_indexed (m : MapperOps μ) (c : Cpu μ)
    (index : Nat) : AddressingMode × Cpu μ :=
  let fc := Cpu.fetch m c
  let indirect_address := fc.1
  let address_lsb := Cpu.load m fc.2 indirect_address
  let address_msb := (Cpu.load m fc.2 ((indirect_address + 1) % 256)) <<< 8
  let base := address_lsb ||| address_msb
  let page_boundary_crossed :=
    decide ((base + index) % 65536 &&& 0xFF00 ≠ base &&& 0xFF00)
  (.memoryAccess ((base + index) % 65536) page_boundary_crossed, fc.2)

/-- Rust `u8` wrapping addition on the `Nat` model. -/
def wadd8 (x y : Nat) : Nat := (x + y) % 256

/-- Rust `u8` wrapping subtraction on the `Nat` model. -/
def wsub8 (x y : Nat) : Nat := (x % 256 + 256 - y % 256) % 256

/-- Rust `u16` wrapping subtraction on the `Nat` model. -/
def wsub16 (x y : Nat) : Nat := (x % 65536 + 65536 - y % 65536) % 65536

/-- Rust `(pc as i32).wrapping_add((offset as i8) as i32) as u16` on the `Nat`
model: sign-extend the low byte of the offset, add, reduce mod 2^16. -/
def branch_add (pc offset : Nat) : Nat :=
  if offset % 256 < 0x80 then (pc + offset % 256) % 65536
  else (pc + offset % 256 + 0xFF00) % 65536

/-- Rust `Registers::set_status_carry` (registers.rs line 66). -/
def Registers.set_status_carry (r : Registers) (status : Bool) : Registers :=
  { r with p := { r.p with carry := status } }

/-- Rust `Registers::set_status_zero` (registers.rs line 67). -/
def Registers.set_status_zero (r : Registers) (status : Bool) : Registers :=
  { r with p := { r.p with zero := status } }

/-- Rust `Registers::set_status_interupt_disable` (registers.rs line 68). -/
def Registers.set_status_interupt_disable (r : Registers) (status : Bool) :
    Registers :=
  { r with p := { r.p with interrupt_disable := status } }

/-- Rust `Registers::set_status_decimal` (registers.rs line 69). -/
def Registers.set_status_decimal (r : Registers) (status : Bool) : Registers :=
  { r with p := { r.p with decimal := status } }

/-- Rust `Registers::set_status_overflow` (registers.rs line 70). -/
def Registers.set_status_overflow (r : Registers) (status : Bool) : Registers :=
  { r with p := { r.p with overflow := status } }

/-- Rust `Registers::set_status_negative` (registers.rs line 71). -/
def Registers.set_status_negative (r : Registers) (status : Bool) : Registers :=
  { r with p := { r.p with negative := status } }

/-- Rust `enum LoadStoreLocation` (instructions.rs lines 7-12). -/
inductive LoadStoreLocation where
  | accumulator
  | x
  | y
deriving DecidableEq, Repr

/-- Rust `Cpu::load_instruction` (instructions.rs lines 17-26). -/
def Cpu.load_instruction (c : Cpu μ) (data : Nat) (dest : LoadStoreLocation) :
    Cpu μ :=
  let r := c.registers.set_status_zero (data == 0)
  let r := r.set_status_negative (data &&& 0x80 == 0x80)
  let r :=
    match dest with
    | .accumulator => { r with a := data }
    | .x => { r with x := data }
    | .y => { r with y := data }
  { c with registers := r }

/-- Rust `Cpu::store_instruction` (instructions.rs lines 46-53). -/
def Cpu.store_instruction (c : Cpu μ) (src : LoadStoreLocation) : Nat :=
  match src with
  | .accumulator => c.registers.a
  | .x => c.registers.x
  | .y => c.registers.y

/-- Rust `Cpu::lda` (instructions.rs lines 28-32). -/
def Cpu.lda (m : MapperOps μ) (c : Cpu μ) (am : AddressingMode) :
    Cpu μ × InstructionResult :=
  (c.load_instruction (am.read m c) .accumulator, .ok)

/-- Rust `Cpu::ldx` (instructions.rs lines 34-38). -/
def Cpu.ldx (m : MapperOps μ) (c : Cpu μ) (am : AddressingMode) :
    Cpu μ × InstructionResult :=
  (c.load_instruction (am.read m c) .x, .ok)

/-- Rust `Cpu::ldy` (instructions.rs lines 40-44). -/
def Cpu.ldy (m : MapperOps μ) (c : Cpu μ) (am : AddressingMode) :
    Cpu μ × InstructionResult :=
  (c.load_instruction (am.read m c) .y, .ok)

/-- Rust `Cpu::sta` (instructions.rs lines 55-59). -/
def Cpu.sta (m : MapperOps μ) (c : Cpu μ) (am : AddressingMode) :
    Cpu μ × InstructionResult :=
  (am.write m c (c.store_instruction .accumulator), .ok)

/-- Rust `Cpu::stx` (instructions.rs lines 61-65). -/
def Cpu.stx (m : MapperOps μ) (c : Cpu μ) (am : AddressingMode) :
    Cpu μ × InstructionResult :=
  (am.write m c (c.store_instruction .x), .ok)

/-- Rust `Cpu::sty` (instructions.rs lines 67-71). -/
def Cpu.sty (m : MapperOps μ) (c : Cpu μ) (am : AddressingMode) :
    Cpu μ × InstructionResult :=
  (am.write m c (c.store_instruction .y), .ok)

/-- Rust `Cpu::tax` (instructions.rs lines 74-80). -/
def Cpu.tax (_m : MapperOps μ) (c : Cpu μ) (_am : AddressingMode) :
    Cpu μ × InstructionResult :=
  let r := c.registers.set_status_zero (c.registers.a == 0)
  let r := r.set_status_negative (c.registers.a &&& 0x80 == 0x80)
  ({ c with registers := { r with x := c.registers.a } }, .ok)

/-- Rust `Cpu::tay` (instructions.rs lines 82-88). -/
def Cpu.tay (_m : MapperOps μ) (c : Cpu μ) (_am : AddressingMode) :
    Cpu μ × InstructionResult :=
  let r := c.registers.set_status_zero (c.registers.a == 0)
  let r := r.set_status_negative (c.registers.a &&& 0x80 == 0x80)
  ({ c with registers := { r with y := c.registers.a } }, .ok)

/-- Rust `Cpu::txa` (instructions.rs lines 90-96). -/
def Cpu.txa (_m : MapperOps μ) (c : Cpu μ) (_am : AddressingMode) :
    Cpu μ × InstructionResult :=
  let r := c.registers.set_status_zero (c.registers.x == 0)
  let r := r.set_status_negative (c.registers.x &&& 0x80 == 0x80)
  ({ c with registers := { r with a := c.registers.x } }, .ok)

/-- Rust `Cpu::tya` (instructions.rs lines 98-104). -/
def Cpu.tya (_m : MapperOps μ) (c : Cpu μ) (_am : AddressingMode) :
    Cpu μ × InstructionResult :=
  let r := c.registers.set_status_zero (c.registers.y == 0)
  let r := r.set_status_negative (c.registers.y &&& 0x80 == 0x80)
  ({ c with registers := { r with a := c.registers.y } }, .ok)

/-- Rust `Cpu::tsx` (instructions.rs lines 107-113). -/
def Cpu.tsx (_m : MapperOps μ) (c : Cpu μ) (_am : AddressingMode) :
    Cpu μ × InstructionResult :=
  let r := c.registers.set_status_zero (c.registers.stack_pointer == 0)
  let r := r.set_status_negative (c.registers.stack_pointer &&& 0x80 == 0x80)
  ({ c with registers := { r with x := c.registers.stack_pointer } }, .ok)

/-- Rust `Cpu::txs` (instructions.rs lines 115-119). -/
def Cpu.txs (_m : MapperOps μ) (c : Cpu μ) (_am : AddressingMode) :
    Cpu μ × InstructionResult :=
  ({ c with registers := { c.registers with stack_pointer := c.registers.x } },
   .ok)

/-- Rust `Cpu::pha` (instructions.rs lines 121-125). -/
def Cpu.pha (m : MapperOps μ) (c : Cpu μ) (_am : AddressingMode) :
    Cpu μ × InstructionResult :=
  (Cpu.push m c c.registers.a, .ok)

/-- Rust `Cpu::php` (instructions.rs lines 127-131): the pushed byte has bits
5 and 4 forced to 1. -/
def Cpu.php (m : MapperOps μ) (c : Cpu μ) (_am : AddressingMode) :
    Cpu μ × InstructionResult :=
  (Cpu.push m c (c.registers.p.get_byte ||| 0b00110000), .ok)

/-- Rust `Cpu::pla` (instructions.rs lines 133-139). -/
def Cpu.pla (m : MapperOps μ) (c : Cpu μ) (_am : AddressingMode) :
    Cpu μ × InstructionResult :=
  let pr := Cpu.pop m c
  let c := pr.2
  let r := { c.registers with a := pr.1 }
  let r := r.set_status_zero (r.a == 0)
  let r := r.set_status_negative (r.a &&& 0x80 == 0x80)
  ({ c with registers := r }, .ok)

/-- Rust `Cpu::plp` (instructions.rs lines 141-146): bits 5 and 4 of the popped
byte are masked off before `set_byte`. -/
def Cpu.plp (m : MapperOps μ) (c : Cpu μ) (_am : AddressingMode) :
    Cpu μ × InstructionResult :=
  let pr := Cpu.pop m c
  let data := pr.1 &&& 0b11001111
  ({ pr.2 with registers := { pr.2.registers with p := Status.set_byte data } },
   .ok)

/-- Rust `Cpu::and` (instructions.rs lines 150-156). -/
def Cpu.and (m : MapperOps μ) (c : Cpu μ) (am : AddressingMode) :
    Cpu μ × InstructionResult :=
  let r := { c.registers with a := c.registers.a &&& am.read m c }
  let r := r.set_status_zero (r.a == 0)
  let r := r.set_status_negative (r.a &&& 0x80 == 0x80)
  ({ c with registers := r }, .ok)

/-- Rust `Cpu::ora` (instructions.rs lines 158-164). -/
def Cpu.ora (m : MapperOps μ) (c : Cpu μ) (am : AddressingMode) :
    Cpu μ × InstructionResult :=
  let r := { c.registers with a := c.registers.a ||| am.read m c }
  let r := r.set_status_zero (r.a == 0)
  let r := r.set_status_negative (r.a &&& 0x80 == 0x80)
  ({ c with registers := r }, .ok)

/-- Rust `Cpu::eor` (instructions.rs lines 166-172). -/
def Cpu.eor (m : MapperOps μ) (c : Cpu μ) (am : AddressingMode) :
    Cpu μ × InstructionResult :=
  let r := { c.registers with a := c.registers.a ^^^ am.read m c }
  let r := r.set_status_zero (r.a == 0)
  let r := r.set_status_negative (r.a &&& 0x80 == 0x80)
  ({ c with registers := r }, .ok)

/-- Rust `Cpu::bit` (instructions.rs lines 174-181). -/
def Cpu.bit (m : MapperOps μ) (c : Cpu μ) (am : AddressingMode) :
    Cpu μ × InstructionResult :=
  let data := am.read m c
  let r := c.registers.set_status_zero (c.registers.a &&& data == 0)
  let r := r.set_status_negative (data &&& 0b10000000 == 0x80)
  let r := r.set_status_overflow (data &&& 0b01000000 == 0x40)
  ({ c with registers := r }, .ok)

/-- Rust `Cpu::adc` (instructions.rs lines 184-194): 16-bit sum, flags from the
low byte; V is `((A ^ r) & (M ^ r) & 0x80) == 0x80`. -/
def Cpu.adc (m : MapperOps μ) (c : Cpu μ) (am : AddressingMode) :
    Cpu μ × InstructionResult :=
  let val := am.read m c
  let result :=
    (c.registers.a + val + cond c.registers.p.carry 1 0) % 65536
  let r := c.registers.set_status_carry (decide (result > 0xFF))
  let r := r.set_status_zero (result % 256 == 0)
  let r := r.set_status_overflow
    ((c.registers.a ^^^ result % 256) &&& (val ^^^ result % 256) &&& 0x80 == 0x80)
  let r := r.set_status_negative (result % 256 &&& 0x80 == 0x80)
  ({ c with registers := { r with a := result % 256 } }, .ok)

/-- Rust `Cpu::sbc` (instructions.rs lines 196-206): 16-bit wrapping
`A - M - (1 - C)`; C is no-borrow; V is `((A ^ r) & (M ^ r) & 0x80) == 0x80`
exactly as in the source (same shape as ADC). -/
def Cpu.sbc (m : MapperOps μ) (c : Cpu μ) (am : AddressingMode) :
    Cpu μ × InstructionResult :=
  let val := am.read m c
  let result :=
    wsub16 (wsub16 c.registers.a val) (cond c.registers.p.carry 0 1)
  let r := c.registers.set_status_carry (decide (result ≤ 0xFF))
  let r := r.set_status_zero (result % 256 == 0)
  let r := r.set_status_overflow
    ((c.registers.a ^^^ result % 256) &&& (val ^^^ result % 256) &&& 0x80 == 0x80)
  let r := r.set_status_negative (result % 256 &&& 0x80 == 0x80)
  ({ c with registers := { r with a := result % 256 } }, .ok)

/-- Rust `Cpu::cmp` (instructions.rs lines 208-215): `i16` subtraction. -/
def Cpu.cmp (m : MapperOps μ) (c : Cpu μ) (am : AddressingMode) :
    Cpu μ × InstructionResult :=
  let result : Int := (c.registers.a : Int) - (am.read m c : Int)
  let r := c.registers.set_status_carry (decide (result ≥ 0))
  let r := r.set_status_zero (decide (result = 0))
  let r := r.set_status_negative ((result.emod 65536).toNat &&& 0x80 == 0x80)
  ({ c with registers := r }, .ok)

/-- Rust `Cpu::cpx` (instructions.rs lines 217-224). -/
def Cpu.cpx (m : MapperOps μ) (c : Cpu μ) (am : AddressingMode) :
    Cpu μ × InstructionResult :=
  let result : Int := (c.registers.x : Int) - (am.read m c : Int)
  let r := c.registers.set_status_carry (decide (result ≥ 0))
  let r := r.set_status_zero (decide (result = 0))
  let r := r.set_status_negative ((result.emod 65536).toNat &&& 0x80 == 0x80)
  ({ c with registers := r }, .ok)

/-- Rust `Cpu::cpy` (instructions.rs lines 226-233). -/
def Cpu.cpy (m : MapperOps μ) (c : Cpu μ) (am : AddressingMode) :
    Cpu μ × InstructionResult :=
  let result : Int := (c.registers.y : Int) - (am.read m c : Int)
  let r := c.registers.set_status_carry (decide (result ≥ 0))
  let r := r.set_status_zero (decide (result = 0))
  let r := r.set_status_negative ((result.emod 65536).toNat &&& 0x80 == 0x80)
  ({ c with registers := r }, .ok)

/-- Rust `Cpu::inc` (instructions.rs lines 236-243). -/
def Cpu.inc (m : MapperOps μ) (c : Cpu μ) (am : AddressingMode) :
    Cpu μ × InstructionResult :=
  let data := am.read m c
  let r := c.registers.set_status_zero (wadd8 data 1 == 0)
  let r := r.set_status_negative (wadd8 data 1 &&& 0x80 == 0x80)
  (am.write m { c with registers := r } (wadd8 data 1), .ok)

/-- Rust `Cpu::inx` (instructions.rs lines 245-251). -/
def Cpu.inx (_m : MapperOps μ) (c : Cpu μ) (_am : AddressingMode) :
    Cpu μ × InstructionResult :=
  let r := { c.registers with x := wadd8 c.registers.x 1 }
  let r := r.set_status_zero (r.x == 0)
  let r := r.set_status_negative (r.x &&& 0x80 == 0x80)
  ({ c with registers := r }, .ok)

/-- Rust `Cpu::iny` (instructions.rs lines 253-259). -/
def Cpu.iny (_m : MapperOps μ) (c : Cpu μ) (_am : AddressingMode) :
    Cpu μ × InstructionResult :=
  let r := { c.registers with y := wadd8 c.registers.y 1 }
  let r := r.set_status_zero (r.y == 0)
  let r := r.set_status_negative (r.y &&& 0x80 == 0x80)
  ({ c with registers := r }, .ok)

/-- Rust `Cpu::dec` (instructions.rs lines 261-268). -/
def Cpu.dec (m : MapperOps μ) (c : Cpu μ) (am : AddressingMode) :
    Cpu μ × InstructionResult :=
  let data := am.read m c
  let r := c.registers.set_status_zero (wsub8 data 1 == 0)
  let r := r.set_status_negative (wsub8 data 1 &&& 0x80 == 0x80)
  (am.write m { c with registers := r } (wsub8 data 1), .ok)

/-- Rust `Cpu::dex` (instructions.rs lines 270-276). -/
def Cpu.dex (_m : MapperOps μ) (c : Cpu μ) (_am : AddressingMode) :
    Cpu μ × InstructionResult :=
  let r := { c.registers with x := wsub8 c.registers.x 1 }
  let r := r.set_status_zero (r.x == 0)
  let r := r.set_status_negative (r.x &&& 0x80 == 0x80)
  ({ c with registers := r }, .ok)

/-- Rust `Cpu::dey` (instructions.rs lines 278-284). -/
def Cpu.dey (_m : MapperOps μ) (c : Cpu μ) (_am : AddressingMode) :
    Cpu μ × InstructionResult :=
  let r := { c.registers with y := wsub8 c.registers.y 1 }
  let r := r.set_status_zero (r.y == 0)
  let r := r.set_status_negative (r.y &&& 0x80 == 0x80)
  ({ c with registers := r }, .ok)

/-- Rust `Cpu::asl` (instructions.rs lines 287-296). -/
def Cpu.asl (m : MapperOps μ) (c : Cpu μ) (am : AddressingMode) :
    Cpu μ × InstructionResult :=
  let data := am.read m c
  let r := c.registers.set_status_carry (data &&& 0x80 == 0x80)
  let result := (data <<< 1) % 256
  let r := r.set_status_zero (result == 0)
  let r := r.set_status_negative (result &&& 0x80 == 0x80)
  (am.write m { c with registers := r } result, .ok)

/-- Rust `Cpu::lsr` (instructions.rs lines 298-307). -/
def Cpu.lsr (m : MapperOps μ) (c : Cpu μ) (am : AddressingMode) :
    Cpu μ × InstructionResult :=
  let data := am.read m c
  let r := c.registers.set_status_carry (data &&& 0x01 == 0x01)
  let result := data >>> 1
  let r := r.set_status_zero (result == 0)
  let r := r.set_status_negative (result &&& 0x80 == 0x80)
  (am.write m { c with registers := r } result, .ok)

/-- Rust `Cpu::rol` (instructions.rs lines 309-319). -/
def Cpu.rol (m : MapperOps μ) (c : Cpu μ) (am : AddressingMode) :
    Cpu μ × InstructionResult :=
  let data := am.read m c
  let old_carry := cond c.registers.p.carry 1 0
  let r := c.registers.set_status_carry (data &&& 0x80 == 0x80)
  let result := (data <<< 1) % 256 ||| old_carry
  let r := r.set_status_zero (result == 0)
  let r := r.set_status_negative (result &&& 0x80 == 0x80)
  (am.write m { c with registers := r } result, .ok)

/-- Rust `Cpu::ror` (instructions.rs lines 321-331). -/
def Cpu.ror (m : MapperOps μ) (c : Cpu μ) (am : AddressingMode) :
    Cpu μ × InstructionResult :=
  let data := am.read m c
  let old_carry := (cond c.registers.p.carry 1 0) <<< 7
  let r := c.registers.set_status_carry (data &&& 0x01 == 0x01)
  let result := data >>> 1 ||| old_carry
  let r := r.set_status_zero (result == 0)
  let r := r.set_status_negative (result &&& 0x80 == 0x80)
  (am.write m { c with registers := r } result, .ok)

/-- Rust `Cpu::jmp` (instructions.rs lines 334-338). -/
def Cpu.jmp (_m : MapperOps μ) (c : Cpu μ) (am : AddressingMode) :
    Cpu μ × InstructionResult :=
  ({ c with registers := { c.registers with pc := am.address } }, .ok)

/-- Rust `Cpu::jsr` (instructions.rs lines 340-347): push `PC - 1` high then
low. -/
def Cpu.jsr (m : MapperOps μ) (c : Cpu μ) (am : AddressingMode) :
    Cpu μ × InstructionResult :=
  let address := wsub16 c.registers.pc 1
  let c := Cpu.push m c (address / 256 % 256)
  let c := Cpu.push m c (address % 256)
  ({ c with registers := { c.registers with pc := am.address } }, .ok)

/-- Rust `Cpu::rts` (instructions.rs lines 349-355): pop low then high, add 1. -/
def Cpu.rts (m : MapperOps μ) (c : Cpu μ) (_am : AddressingMode) :
    Cpu μ × InstructionResult :=
  let p1 := Cpu.pop m c
  let p2 := Cpu.pop m p1.2
  let address := ((p1.1 ||| p2.1 <<< 8) + 1) % 65536
  ({ p2.2 with registers := { p2.2.registers with pc := address } }, .ok)

/-- The shared body of the eight branch instructions (instructions.rs lines
358-452): each tests its predicate, adds the signed offset and reports
`Branch(1)` or `Branch(2)` by page equality of old and new PC. -/
def Cpu.branch_instruction (m : MapperOps μ) (c : Cpu μ) (am : AddressingMode)
    (condition : Bool) : Cpu μ × InstructionResult :=
  if condition then
    let old_pc := c.registers.pc
    let offset := am.read m c
    let new_pc := branch_add c.registers.pc offset
    ({ c with registers := { c.registers with pc := new_pc } },
     .branch (if old_pc &&& 0xFF00 = new_pc &&& 0xFF00 then 1 else 2))
  else (c, .nop)

/-- Rust `Cpu::bcc` (instructions.rs lines 358-368). -/
def Cpu.bcc (m : MapperOps μ) (c : Cpu μ) (am : AddressingMode) :
    Cpu μ × InstructionResult :=
  Cpu.branch_instruction m c am (!c.registers.p.carry)

/-- Rust `Cpu::bcs` (instructions.rs lines 370-380). -/
def Cpu.bcs (m : MapperOps μ) (c : Cpu μ) (am : AddressingMode) :
    Cpu μ × InstructionResult :=
  Cpu.branch_instruction m c am c.registers.p.carry

/-- Rust `Cpu::beq` (instructions.rs lines 382-392). -/
def Cpu.beq (m : MapperOps μ) (c : Cpu μ) (am : AddressingMode) :
    Cpu μ × InstructionResult :=
  Cpu.branch_instruction m c am c.registers.p.zero

/-- Rust `Cpu::bmi` (instructions.rs lines 394-404). -/
def Cpu.bmi (m : MapperOps μ) (c : Cpu μ) (am : AddressingMode) :
    Cpu μ × InstructionResult :=
  Cpu.branch_instruction m c am c.registers.p.negative

/-- Rust `Cpu::bne` (instructions.rs lines 406-416). -/
def Cpu.bne (m : MapperOps μ) (c : Cpu μ) (am : AddressingMode) :
    Cpu μ × InstructionResult :=
  Cpu.branch_instruction m c am (!c.registers.p.zero)

/-- Rust `Cpu::bpl` (instructions.rs lines 418-428). -/
def Cpu.bpl (m : MapperOps μ) (c : Cpu μ) (am : AddressingMode) :
    Cpu μ × InstructionResult :=
  Cpu.branch_instruction m c am (!c.registers.p.negative)

/-- Rust `Cpu::bvc` (instructions.rs lines 430-440). -/
def Cpu.bvc (m : MapperOps μ) (c : Cpu μ) (am : AddressingMode) :
    Cpu μ × InstructionResult :=
  Cpu.branch_instruction m c am (!c.registers.p.overflow)

/-- Rust `Cpu::bvs` (instructions.rs lines 442-452). -/
def Cpu.bvs (m : MapperOps μ) (c : Cpu μ) (am : AddressingMode) :
    Cpu μ × InstructionResult :=
  Cpu.branch_instruction m c am c.registers.p.overflow

/-- Rust `Cpu::clc` (instructions.rs lines 455-459). -/
def Cpu.clc (_m : MapperOps μ) (c : Cpu μ) (_am : AddressingMode) :
    Cpu μ × InstructionResult :=
  ({ c with registers := c.registers.set_status_carry false }, .ok)

/-- Rust `Cpu::cld` (instructions.rs lines 461-465). -/
def Cpu.cld (_m : MapperOps μ) (c : Cpu μ) (_am : AddressingMode) :
    Cpu μ × InstructionResult :=
  ({ c with registers := c.registers.set_status_decimal false }, .ok)

/-- Rust `Cpu::cli` (instructions.rs lines 467-471). -/
def Cpu.cli (_m : MapperOps μ) (c : Cpu μ) (_am : AddressingMode) :
    Cpu μ × InstructionResult :=
  ({ c with registers := c.registers.set_status_interupt_disable false }, .ok)

/-- Rust `Cpu::clv` (instructions.rs lines 473-477). -/
def Cpu.clv (_m : MapperOps μ) (c : Cpu μ) (_am : AddressingMode) :
    Cpu μ × InstructionResult :=
  ({ c with registers := c.registers.set_status_overflow false }, .ok)

/-- Rust `Cpu::sec` (instructions.rs lines 479-483). -/
def Cpu.sec (_m : MapperOps μ) (c : Cpu μ) (_am : AddressingMode) :
    Cpu μ × InstructionResult :=
  ({ c with registers := c.registers.set_status_carry true }, .ok)

/-- Rust `Cpu::sed` (instructions.rs lines 485-489). -/
def Cpu.sed (_m : MapperOps μ) (c : Cpu μ) (_am : AddressingMode) :
    Cpu μ × InstructionResult :=
  ({ c with registers := c.registers.set_status_decimal true }, .ok)

/-- Rust `Cpu::sei` (instructions.rs lines 491-495). -/
def Cpu.sei (_m : MapperOps μ) (c : Cpu μ) (_am : AddressingMode) :
    Cpu μ × InstructionResult :=
  ({ c with registers := c.registers.set_status_interupt_disable true }, .ok)

/-- Rust `Cpu::brk` (instructions.rs lines 498-502). -/
def Cpu.brk (m : MapperOps μ) (c : Cpu μ) (_am : AddressingMode) :
    Cpu μ × InstructionResult :=
  (Cpu.interrupt m c .brk, .ok)

/-- Rust `Cpu::rti` (instructions.rs lines 504-510): pop status, then PC low,
then PC high. -/
def Cpu.rti (m : MapperOps μ) (c : Cpu μ) (_am : AddressingMode) :
    Cpu μ × InstructionResult :=
  let p1 := Cpu.pop m c
  let c := { p1.2 with registers :=
      { p1.2.registers with p := Status.set_byte p1.1 } }
  let p2 := Cpu.pop m c
  let p3 := Cpu.pop m p2.2
  ({ p3.2 with registers := { p3.2.registers with pc := p2.1 ||| p3.1 <<< 8 } },
   .ok)

/-- Rust `Cpu::get_addressing_mode` (mod.rs lines 177-247), with the arms kept in
source order (the first matching arm wins). -/
def Cpu.get_addressing_mode (m : MapperOps μ) (c : Cpu μ) (opcode : Nat) :
    AddressingMode × Cpu μ :=
  if opcode = 0x20 then MemoryAccess.new_absolute m c
  else if opcode = 0x80 ∨ opcode = 0xA0 ∨ opcode = 0xC0 ∨ opcode = 0xE0 then
    Immediate.new m c
  else if opcode &&& 0x1F = 0x01 then
    MemoryAccess.new_indexed_indirect m c c.registers.x
  else if opcode = 0x82 ∨ opcode = 0xA2 ∨ opcode = 0xC2 ∨ opcode = 0xE2 then
    Immediate.new m c
  else if opcode &&& 0x1F = 0x03 then
    MemoryAccess.new_indexed_zero_page m c c.registers.x
  else if opcode &&& 0x1F = 0x04 then MemoryAccess.new_zero_page m c
  else if opcode &&& 0x1F = 0x05 then MemoryAccess.new_zero_page m c
  else if opcode &&& 0x1F = 0x06 then MemoryAccess.new_zero_page m c
  else if opcode &&& 0x1F = 0x07 then MemoryAccess.new_zero_page m c
  else if opcode &&& 0x1F = 0x09 then Immediate.new m c
  else if opcode = 0x0A ∨ opcode = 0x2A ∨ opcode = 0x4A ∨ opcode = 0x6A then
    (.accumulator, c)
  else if opcode = 0x6C then MemoryAccess.new_indirect m c
  else if opcode &&& 0x1F = 0x0C then MemoryAccess.new_absolute m c
  else if opcode &&& 0x1F = 0x0D then MemoryAccess.new_absolute m c
  else if opcode &&& 0x1F = 0x0E then MemoryAccess.new_absolute m c
  else if opcode &&& 0x1F = 0x0F then MemoryAccess.new_absolute m c
  else if opcode &&& 0x1F = 0x10 then Relative.new m c
  else if opcode &&& 0x1F = 0x11 then
    MemoryAccess.new_indirect_indexed m c c.registers.y
  else if opcode &&& 0x1F = 0x13 then
    MemoryAccess.new_indirect_indexed m c c.registers.y
  else if opcode &&& 0x1F = 0x14 then
    MemoryAccess.new_indexed_zero_page m c c.registers.x
  else if opcode &&& 0x1F = 0x15 then
    MemoryAccess.new_indexed_zero_page m c c.registers.x
  else if opcode = 0x96 ∨ opcode = 0xB6 then
    MemoryAccess.new_indexed_zero_page m c c.registers.y
  else if opcode &&& 0x1F = 0x16 then
    MemoryAccess.new_indexed_zero_page m c c.registers.x
  else if opcode = 0x97 ∨ opcode = 0xB7 then
    MemoryAccess.new_indexed_zero_page m c c.registers.y
  else if opcode &&& 0x1F = 0x17 then
    MemoryAccess.new_indexed_zero_page m c c.registers.x
  else if opcode &&& 0x1F = 0x19 then
    MemoryAccess.new_indexed_absolute m c c.registers.y
  else if opcode &&& 0x1F = 0x1B then
    MemoryAccess.new_indexed_absolute m c c.registers.y
  else if opcode &&& 0x1F = 0x1C then
    MemoryAccess.new_indexed_absolute m c c.registers.x
  else if opcode &&& 0x1F = 0x1D then
    MemoryAccess.new_indexed_absolute m c c.registers.x
  else if opcode = 0x9E ∨ opcode = 0xBE then
    MemoryAccess.new_indexed_absolute m c c.registers.y
  else if opcode &&& 0x1F = 0x1E then
    MemoryAccess.new_indexed_absolute m c c.registers.x
  else if opcode = 0x9F ∨ opcode = 0xBF then
    MemoryAccess.new_indexed_absolute m c c.registers.y
  else if opcode &&& 0x1F = 0x1F then
    MemoryAccess.new_indexed_absolute m c c.registers.x
  else (.implicit, c)

/-- Rust `Cpu::get_wait_cycles` (mod.rs lines 249-303): the base cycle table,
arms in source order. -/
def Cpu.get_wait_cycles (opcode : Nat) (page_boundary_crossed : Bool) : Nat :=
  if opcode = 0x00 then 7
  else if opcode ∈ [0x40, 0x60, 0x20] then 6
  else if opcode ∈ [0x08, 0x48] then 3
  else if opcode ∈ [0x28, 0x68] then 4
  else if opcode = 0x4C then 3
  else if opcode ∈ [0xAD, 0xAE, 0xAC, 0x4D, 0x2D, 0x0D, 0x6D, 0xED, 0xCD,
      0x2C, 0x0C, 0xCC, 0xEC] then 4
  else if opcode ∈ [0x0E, 0x4E, 0x2E, 0x6E, 0xEE, 0xCE] then 6
  else if opcode ∈ [0x8D, 0x8E, 0x8C] then 4
  else if opcode ∈ [0xA5, 0xA6, 0xA4, 0x45, 0x25, 0x05, 0x65, 0xE5, 0xC5,
      0x24, 0x04, 0x44, 0x64, 0xC4, 0xE4] then 3
  else if opcode ∈ [0x06, 0x46, 0x26, 0x66, 0xE6, 0xC6] then 5
  else if opcode ∈ [0x85, 0x86, 0x84] then 3
  else if opcode ∈ [0xB5, 0xB6, 0xB4, 0x55, 0x35, 0x15, 0x75, 0xF5, 0xD5,
      0x34, 0x14, 0x54, 0x74, 0xD4, 0xF4] then 4
  else if opcode ∈ [0x16, 0x56, 0x36, 0x76, 0xF6, 0xD6] then 6
  else if opcode ∈ [0x95, 0x96, 0x94] then 4
  else if opcode ∈ [0xBC, 0x19, 0x1D, 0x39, 0x3D, 0x59, 0x5D, 0x79, 0x7D,
      0xB9, 0xBD, 0xD9, 0xDD, 0xF9, 0xFD, 0xBE, 0x1C, 0x3C, 0x5C, 0x7C,
      0xDC, 0xFC] then
    if page_boundary_crossed then 5 else 4
  else if opcode ∈ [0x1E, 0x3E, 0x5E, 0x7E, 0xDE, 0xFE] then 7
  else if opcode ∈ [0x99, 0x9D] then 5
  else if opcode ∈ [0x10, 0x30, 0x50, 0x70, 0x90, 0xB0, 0xD0, 0xF0] then 2
  else if opcode ∈ [0x01, 0x21, 0x41, 0x61, 0xA1, 0xC1, 0xE1] then 6
  else if opcode = 0x81 then 6
  else if opcode ∈ [0x11, 0x31, 0x51, 0x71, 0xB1, 0xD1, 0xF1] then
    if page_boundary_crossed then 6 else 5
  else if opcode = 0x91 then 6
  else if opcode = 0x6C then 5
  else 2

/-- Rust `Cpu::execute_instruction` (mod.rs lines 376-455): build the addressing
mode, look up the base cycles, dispatch the instruction (arms in source
order), and add the result-dependent extra cycles.  Returns the new CPU and
the number of wait cycles. -/
def Cpu.execute_instruction (m : MapperOps μ) (c : Cpu μ) (opcode : Nat) :
    Cpu μ × Nat :=
  let amc := Cpu.get_addressing_mode m c opcode
  let am := amc.1
  let c := amc.2
  let wait_cycles := Cpu.get_wait_cycles opcode am.page_boundary_crossed
  let cr : Cpu μ × InstructionResult :=
    if opcode = 0x00 then Cpu.brk m c am
    else if opcode = 0x40 then Cpu.rti m c am
    else if opcode = 0x60 then Cpu.rts m c am
    else if opcode = 0x08 then Cpu.php m c am
    else if opcode = 0x28 then Cpu.plp m c am
    else if opcode = 0x48 then Cpu.pha m c am
    else if opcode = 0x68 then Cpu.pla m c am
    else if opcode = 0x4C ∨ opcode = 0x6C then Cpu.jmp m c am
    else if opcode = 0x20 then Cpu.jsr m c am
    else if opcode = 0x10 then Cpu.bpl m c am
    else if opcode = 0x30 then Cpu.bmi m c am
    else if opcode = 0x50 then Cpu.bvc m c am
    else if opcode = 0x70 then Cpu.bvs m c am
    else if opcode = 0x90 then Cpu.bcc m c am
    else if opcode = 0xB0 then Cpu.bcs m c am
    else if opcode = 0xD0 then Cpu.bne m c am
    else if opcode = 0xF0 then Cpu.beq m c am
    else if opcode = 0x18 then Cpu.clc m c am
    else if opcode = 0x38 then Cpu.sec m c am
    else if opcode = 0x58 then Cpu.cli m c am
    else if opcode = 0x78 then Cpu.sei m c am
    else if opcode = 0x88 then Cpu.dey m c am
    else if opcode = 0x98 then Cpu.tya m c am
    else if opcode = 0xA8 then Cpu.tay m c am
    else if opcode = 0xB8 then Cpu.clv m c am
    else if opcode = 0xC8 then Cpu.iny m c am
    else if opcode = 0xCA then Cpu.dex m c am
    else if opcode = 0xD8 then Cpu.cld m c am
    else if opcode = 0xE8 then Cpu.inx m c am
    else if opcode = 0xF8 then Cpu.sed m c am
    else if opcode ∈ [0x80, 0x04, 0x44, 0x64, 0x0C, 0x14, 0x34, 0x54, 0x74,
        0xD4, 0xF4, 0x1C, 0x3C, 0x5C, 0x7C, 0xDC, 0xFC] then (c, .nop)
    else if opcode = 0x9C then (c, .nop)
    else if opcode &&& 0xE0 = 0x20 ∧ opcode &&& 0x03 = 0x00 then Cpu.bit m c am
    else if opcode &&& 0xE0 = 0x80 ∧ opcode &&& 0x03 = 0x00 then Cpu.sty m c am
    else if opcode &&& 0xE0 = 0xA0 ∧ opcode &&& 0x03 = 0x00 then Cpu.ldy m c am
    else if opcode &&& 0xE0 = 0xC0 ∧ opcode &&& 0x03 = 0x00 then Cpu.cpy m c am
    else if opcode &&& 0xE0 = 0xE0 ∧ opcode &&& 0x03 = 0x00 then Cpu.cpx m c am
    else if opcode = 0x89 then (c, .nop)
    else if opcode &&& 0xE0 = 0x00 ∧ opcode &&& 0x03 = 0x01 then Cpu.ora m c am
    else if opcode &&& 0xE0 = 0x20 ∧ opcode &&& 0x03 = 0x01 then Cpu.and m c am
    else if opcode &&& 0xE0 = 0x40 ∧ opcode &&& 0x03 = 0x01 then Cpu.eor m c am
    else if opcode &&& 0xE0 = 0x60 ∧ opcode &&& 0x03 = 0x01 then Cpu.adc m c am
    else if opcode &&& 0xE0 = 0x80 ∧ opcode &&& 0x03 = 0x01 then Cpu.sta m c am
    else if opcode &&& 0xE0 = 0xA0 ∧ opcode &&& 0x03 = 0x01 then Cpu.lda m c am
    else if opcode &&& 0xE0 = 0xC0 ∧ opcode &&& 0x03 = 0x01 then Cpu.cmp m c am
    else if opcode &&& 0xE0 = 0xE0 ∧ opcode &&& 0x03 = 0x01 then Cpu.sbc m c am
    else if opcode = 0x8A then Cpu.txa m c am
    else if opcode = 0xAA then Cpu.tax m c am
    else if opcode = 0x9A then Cpu.txs m c am
    else if opcode = 0xBA then Cpu.tsx m c am
    else if opcode ∈ [0x82, 0xC2, 0xE2, 0xEA, 0x1A, 0x3A, 0x5A, 0x7A, 0xDA,
        0xFA] then (c, .nop)
    else if opcode ∈ [0x02, 0x22, 0x42, 0x62, 0x12, 0x31, 0x52, 0x72, 0x92,
        0xB2, 0xD2, 0xF2, 0x9E] then (c, .nop)
    else if opcode &&& 0xE0 = 0x00 ∧ opcode &&& 0x03 = 0x02 then Cpu.asl m c am
    else if opcode &&& 0xE0 = 0x20 ∧ opcode &&& 0x03 = 0x02 then Cpu.rol m c am
    else if opcode &&& 0xE0 = 0x40 ∧ opcode &&& 0x03 = 0x02 then Cpu.lsr m c am
    else if opcode &&& 0xE0 = 0x60 ∧ opcode &&& 0x03 = 0x02 then Cpu.ror m c am
    else if opcode &&& 0xE0 = 0x80 ∧ opcode &&& 0x03 = 0x02 then Cpu.stx m c am
    else if opcode &&& 0xE0 = 0xA0 ∧ opcode &&& 0x03 = 0x02 then Cpu.ldx m c am
    else if opcode &&& 0xE0 = 0xC0 ∧ opcode &&& 0x03 = 0x02 then Cpu.dec m c am
    else if opcode &&& 0xE0 = 0xE0 ∧ opcode &&& 0x03 = 0x02 then Cpu.inc m c am
    else (c, .nop)
  (cr.1, wait_cycles +
    match cr.2 with
    | .ok => 0
    | .nop => 0
    | .branch cycles => cycles
    | .oamdma => if cr.1.cycles % 2 = 1 then 514 else 513)

/-- One fetch-decode-execute step: the `wait_cycles == 0` branch of
`Clocked::clock` for `Cpu` (mod.rs lines 476-487), without the trace print.
Returns the new state and the wait-cycle cost charged for the
instruction. -/
def Cpu.step (m : MapperOps μ) (c : Cpu μ) : Cpu μ × Nat :=
  let oc := Cpu.fetch m c
  Cpu.execute_instruction m oc.2 oc.1

/-- Mapper over a plain ROM-image function: reads return the image byte,
writes leave the image unchanged (a read-only mapper in the spirit of
`DummyMapper`, but with arbitrary contents). -/
def FnMapper : MapperOps (Nat → Nat) :=
  { read := fun f a => f a, write := fun f _ _ => f }

/-- Mapper whose every read returns 0x99 (to make cartridge forwarding
observable). -/
def Ops99 : MapperOps Unit :=
  { read := fun _ _ => 0x99, write := fun s _ _ => s }

/-- Cartridge image whose reset vector 0xFFFC/0xFFFD holds 0xBBAA and whose
IRQ/BRK vector 0xFFFE/0xFFFF holds 0xDDCC. -/
def vectorRom : Nat → Nat := fun a =>
  if a = 0xFFFC then 0xAA
  else if a = 0xFFFD then 0xBB
  else if a = 0xFFFE then 0xCC
  else if a = 0xFFFF then 0xDD
  else 0

/-- Status value with every live flag set except I. -/
def allButI : Status :=
  { carry := true, zero := true, interrupt_disable := false, decimal := true,
    overflow := true, negative := true }

/-- Dummy CPU whose status is `allButI` (concrete interrupt-entry input). -/
def cpuAllFlags : Cpu Unit :=
  { Cpu.new_dummy with registers := { Cpu.new_dummy.registers with p := allButI } }

/-- Status value with only the carry flag set. -/
def carryOnly : Status :=
  { carry := true, zero := false, interrupt_disable := false, decimal := false,
    overflow := false, negative := false }

/-- Dummy CPU with A = 0 and C = 1 (concrete SBC input). -/
def cpuSbcInput : Cpu Unit :=
  { Cpu.new_dummy with registers := { Cpu.new_dummy.registers with p := carryOnly } }

/-- Dummy CPU with PC = 0x0200 and RAM all zero, so the byte at PC is the
BRK opcode 0x00. -/
def cpuBrkInput : Cpu Unit :=
  { Cpu.new_dummy with registers := { Cpu.new_dummy.registers with pc := 0x0200 } }

/-- Dummy CPU with PC = 0x0200, carry clear, opcode 0x90 (BCC) at 0x0200 and
operand 0x04 at 0x0201 (the scenario of the BCC claim). -/
def cpuBccInput : Cpu Unit :=
  { cpuBrkInput with
    internal_ram := fun i => if i = 0 then 0x90 else if i = 1 then 0x04 else 0 }

set_option maxRecDepth 2000 in
/-- Bit-or of 0x0100 with a byte is plain addition (disjoint bits). -/
theorem lor_256_eq (s : Nat) (h : s < 256) : 256 ||| s = 256 + s := by
  revert s; decide

/-- Addresses 0x0100..0x01FF route to the stack page, at the low byte. -/
theorem route_stackPage (s : Nat) (h : s < 256) :
    Cpu.corresponding_address_space (256 + s) = .stackPage s := by
  have h1 : (256 + s) / 256 % 256 = 1 := by omega
  have h2 : (256 + s) % 256 = s := by omega
  simp only [Cpu.corresponding_address_space]
  rw [h1, h2]
  norm_num

/-- Characterisation of `Cpu::push` for an in-range stack pointer: the byte
lands in the stack array at index S and S wraps down by one. -/
theorem push_stack_spec (m : MapperOps μ) (c : Cpu μ) (d : Nat)
    (h : c.registers.stack_pointer < 256) :
    Cpu.push m c d =
      { c with
        stack := fun i => if i = c.registers.stack_pointer then d else c.stack i,
        registers := { c.registers with
          stack_pointer := (c.registers.stack_pointer + 255) % 256 } } := by
  unfold Cpu.push Cpu.write
  rw [lor_256_eq _ h, route_stackPage _ h]

/-- Characterisation of `Cpu::top`: it reads the stack array at S+1 mod 256. -/
theorem top_stack_spec (m : MapperOps μ) (c : Cpu μ) :
    Cpu.top m c = c.stack ((c.registers.stack_pointer + 1) % 256) := by
  have h : (c.registers.stack_pointer + 1) % 256 < 256 := Nat.mod_lt _ (by norm_num)
  unfold Cpu.top Cpu.load
  rw [lor_256_eq _ h, route_stackPage _ h]

/-- Unpacking a packed status byte that had bits 5 and 4 forced on and then
masked off restores every live flag. -/
theorem set_get_mask :
    ∀ (cc zz ii dd vv nn : Bool),
      Status.set_byte
          ((Status.get_byte ⟨cc, zz, ii, dd, vv, nn⟩ ||| 0b00110000) &&& 0b11001111) =
        ⟨cc, zz, ii, dd, vv, nn⟩ := by decide

/-- Helper for C9: PHP followed by PLP restores the live flags. -/
theorem php_plp_restores (m : MapperOps μ) (c : Cpu μ) (h : c.Wf) :
    (Cpu.plp m (Cpu.php m c .implicit).1 .implicit).1.registers.p =
      c.registers.p := by
  obtain ⟨-, -, -, hsp, -⟩ := h
  have h1 : ((c.registers.stack_pointer + 255) % 256 + 1) % 256 =
      c.registers.stack_pointer := by omega
  unfold Cpu.plp Cpu.pop Cpu.php
  rw [push_stack_spec m c _ hsp, top_stack_spec]
  simp only [h1]
  simp
  rcases hp : c.registers.p with ⟨cc, zz, ii, dd, vv, nn⟩
  exact set_get_mask cc zz ii dd vv nn

/-- Full characterisation of `Cpu::interrupt` on a BRK: three stack writes
(PC high at S, PC low at S-1, `P | 0x30` at S-2), S decreased by 3, PC
reloaded from the cartridge word at 0xFFFE/0xFFFF, and the status replaced
by `set_byte(0b0000_0100)`. -/
theorem interrupt_brk_spec (m : MapperOps μ) (c : Cpu μ)
    (hsp : c.registers.stack_pointer < 256) :
    Cpu.interrupt m c .brk =
      { c with
        stack := fun i =>
          if i = (c.registers.stack_pointer + 254) % 256 then
            c.registers.p.get_byte ||| 0b00110000
          else if i = (c.registers.stack_pointer + 255) % 256 then
            c.registers.pc % 256
          else if i = c.registers.stack_pointer then
            c.registers.pc / 256 % 256
          else c.stack i,
        registers := { c.registers with
          stack_pointer := (c.registers.stack_pointer + 253) % 256,
          pc := m.read c.cartridge 0xFFFE ||| (m.read c.cartridge 0xFFFF) <<< 8,
          p := Status.set_byte 0b00000100 } } := by
  unfold Cpu.interrupt
  dsimp only
  rw [push_stack_spec, push_stack_spec, push_stack_spec]
  · dsimp only
    unfold Cpu.load
    rw [show Cpu.corresponding_address_space 0xFFFE = .cartridge 0xFFFE from by decide,
        show Cpu.corresponding_address_space (0xFFFE + 1) = .cartridge 0xFFFF from by decide]
    dsimp only
    rw [show ((c.registers.stack_pointer + 255) % 256 + 255) % 256 =
        (c.registers.stack_pointer + 254) % 256 from by omega]
    rw [show ((c.registers.stack_pointer + 254) % 256 + 255) % 256 =
        (c.registers.stack_pointer + 253) % 256 from by omega]
  · exact hsp
  · dsimp only
    exact Nat.mod_lt _ (by norm_num)
  · dsimp only
    exact Nat.mod_lt _ (by norm_num)

/-- Opcode 0x00 dispatches to `Cpu::brk` with 7 base cycles and no extra
cycles. -/
theorem execute_instruction_brk (m : MapperOps μ) (c : Cpu μ) :
    Cpu.execute_instruction m c 0x00 = (Cpu.interrupt m c .brk, 7) := by
  simp [Cpu.execute_instruction, Cpu.get_addressing_mode, Cpu.get_wait_cycles,
    Cpu.brk, AddressingMode.page_boundary_crossed]

/-- C1 (amended): executing BRK (opcode 0x00) fetched at address p pushes the
high and low bytes of p+1 (the address of the byte right after the opcode;
the code does not skip an extra signature byte), then pushes the status byte
with bits 5 and 4 set, sets I=1, loads PC from the little-endian word at
0xFFFE/0xFFFF, decreases S by 3 (mod 256), and the instruction costs 7
cycles. -/
theorem C1_brk_pushes_pc_plus_one (m : MapperOps μ) (c : Cpu μ) (h : c.Wf)
    (hop : Cpu.load m c c.registers.pc = 0x00) :
    (Cpu.step m c).1.stack c.registers.stack_pointer =
        (c.registers.pc + 1) % 65536 / 256 % 256 ∧
    (Cpu.step m c).1.stack ((c.registers.stack_pointer + 255) % 256) =
        (c.registers.pc + 1) % 65536 % 256 ∧
    (Cpu.step m c).1.stack ((c.registers.stack_pointer + 254) % 256) =
        (c.registers.p.get_byte ||| 0b00110000) ∧
    (Cpu.step m c).1.registers.stack_pointer =
        (c.registers.stack_pointer + 253) % 256 ∧
    (Cpu.step m c).1.registers.p.interrupt_disable = true ∧
    (Cpu.step m c).1.registers.pc =
        (m.read c.cartridge 0xFFFE ||| (m.read c.cartridge 0xFFFF) <<< 8) ∧
    (Cpu.step m c).2 = 7 := by
  obtain ⟨-, -, -, hsp, -⟩ := h
  unfold Cpu.step Cpu.fetch
  dsimp only
  rw [hop, execute_instruction_brk, interrupt_brk_spec]
  · dsimp only
    refine ⟨?_, ?_, ?_, rfl, by decide, rfl, rfl⟩
    · rw [if_neg (by omega), if_neg (by omega), if_pos rfl]
    · rw [if_neg (by omega), if_pos rfl]
    · rw [if_pos rfl]
  · exact hsp

/-- C1 witness: the amended BRK theorem instantiated at the concrete dummy
CPU with the BRK opcode at 0x0200. -/
theorem C1_witness :
    cpuBrkInput.Wf ∧
    Cpu.load DummyMapper cpuBrkInput cpuBrkInput.registers.pc = 0x00 ∧
    (Cpu.step DummyMapper cpuBrkInput).2 = 7 :=
  ⟨by decide, by decide,
   (C1_brk_pushes_pc_plus_one DummyMapper cpuBrkInput (by decide)
     (by decide)).2.2.2.2.2.2⟩

/-- C1 counterexample: with the BRK opcode fetched at p = 0x0200 the pushed
low PC byte (stack cell 0xFC) is 0x01 = low(p+1), not 0x02 = low(p+2) as the
claim states. -/
theorem C1_counterexample :
    (Cpu.step DummyMapper cpuBrkInput).1.stack 0xFC = 0x01 ∧
    (Cpu.step DummyMapper cpuBrkInput).1.stack 0xFC ≠ 0x02 := by decide

/-- C2: interrupt entry via `Cpu::interrupt` replaces the whole status byte
with `set_byte(0b0000_0100)`: starting from C=Z=D=V=N=1, I=0, a BRK entry
leaves every flag cleared except I — the claim's "only I may differ" fails. -/
theorem C2_interrupt_entry_clobbers_flags :
    (Cpu.interrupt DummyMapper cpuAllFlags .brk).registers.p =
      { carry := false, zero := false, interrupt_disable := true,
        decimal := false, overflow := false, negative := false } := by decide

/-- C3: at A=0x00, M=0x80, C=1 the SBC result is 0x80 (= 0 − (−128), a
signed overflow), yet the code's overflow flag is false; the claim's
canonical formula `((A^M) & (A^diff) & 0x80) != 0` evaluates to true there
(third conjunct), so the code diverges from the claim. -/
theorem C3_sbc_overflow_divergence :
    (Cpu.sbc DummyMapper cpuSbcInput (.immediate 0x80)).1.registers.a = 0x80 ∧
    (Cpu.sbc DummyMapper cpuSbcInput (.immediate 0x80)).1.registers.p.overflow
        = false ∧
    (cpuSbcInput.registers.a ^^^ 0x80) &&&
        (cpuSbcInput.registers.a ^^^
          (Cpu.sbc DummyMapper cpuSbcInput (.immediate 0x80)).1.registers.a) &&&
        0x80 ≠ 0 := by decide

/-- C4: on a cartridge whose reset vector 0xFFFC/0xFFFD holds 0xBBAA and
whose IRQ vector 0xFFFE/0xFFFF holds 0xDDCC, `Cpu::new` sets PC to 0xDDCC
(the IRQ/BRK vector), not 0xBBAA as the claim's reset vector would give; the
remaining construction facts (S=0xFD, I=1, cycles=7, wait_cycles=0) hold. -/
theorem C4_new_reads_irq_vector :
    (Cpu.new FnMapper vectorRom).registers.pc = 0xDDCC ∧
    (Cpu.new FnMapper vectorRom).registers.pc ≠ 0xBBAA ∧
    (Cpu.new FnMapper vectorRom).registers.stack_pointer = 0xFD ∧
    (Cpu.new FnMapper vectorRom).registers.p.interrupt_disable = true ∧
    (Cpu.new FnMapper vectorRom).cycles = 7 ∧
    (Cpu.new FnMapper vectorRom).wait_cycles = 0 := by decide

/-- C5: the router sends address 0x4020 to the PPU-register stub (the guard
`x <= 0x40` also captures high byte 0x40), so a load at 0x4020 returns the
stub's 0 even though the cartridge read at 0x4020 would return 0x99 — the
claimed forwarding to the cartridge fails on 0x4020..0x40FF. -/
theorem C5_router_misroutes_0x4020 :
    Cpu.corresponding_address_space 0x4020 = Sink.ppu 0 ∧
    Cpu.load Ops99 Cpu.new_dummy 0x4020 = 0 ∧
    Ops99.read Cpu.new_dummy.cartridge 0x4020 = 0x99 := by decide

/-- Masking with 0x80 extracts bit 7. -/
theorem and128_toNat (n : Nat) : n &&& 128 = (n.testBit 7).toNat * 128 := by
  simpa using Nat.and_two_pow n 7

/-- Reducing mod 256 keeps bit 7. -/
theorem testBit7_mod256 (s : Nat) : (s % 256).testBit 7 = s.testBit 7 := by
  rw [show (256 : Nat) = 2 ^ 8 from rfl, Nat.testBit_mod_two_pow]
  simp

/-- The source's ADC overflow test `((A ^ r) & (M ^ r) & 0x80) == 0x80` (with
r the low byte of the sum) agrees with the canonical
`(~(A^M) & (A^sum) & 0x80) != 0`. -/
theorem adc_overflow_formula (a v s : Nat) :
    ((a ^^^ s % 256) &&& (v ^^^ s % 256) &&& 0x80 = 0x80) ↔
      ((a ^^^ v) ^^^ 0xFF) &&& (a ^^^ s) &&& 0x80 ≠ 0 := by
  rw [and128_toNat, and128_toNat]
  simp only [Nat.testBit_land, Nat.testBit_xor, testBit7_mod256]
  rw [show Nat.testBit 0xFF 7 = true from rfl]
  cases a.testBit 7 <;> cases v.testBit 7 <;> cases s.testBit 7 <;> decide

/-- C6: for every accumulator value A, operand M and carry C, ADC computes
sum = A + M + C, stores the low byte in A, sets C iff sum > 0xFF, Z iff the
low byte is 0, N to bit 7 of the low byte, and V to
`(~(A^M) & (A^sum) & 0x80) != 0`. -/
theorem C6_adc_flags (m : MapperOps μ) (c : Cpu μ) (h : c.Wf) (v : Nat)
    (hv : v < 256) :
    (Cpu.adc m c (.immediate v)).1.registers.a =
        (c.registers.a + v + cond c.registers.p.carry 1 0) % 256 ∧
    ((Cpu.adc m c (.immediate v)).1.registers.p.carry = true ↔
        c.registers.a + v + cond c.registers.p.carry 1 0 > 0xFF) ∧
    ((Cpu.adc m c (.immediate v)).1.registers.p.zero = true ↔
        (c.registers.a + v + cond c.registers.p.carry 1 0) % 256 = 0) ∧
    ((Cpu.adc m c (.immediate v)).1.registers.p.negative = true ↔
        ((c.registers.a + v + cond c.registers.p.carry 1 0) % 256).testBit 7
          = true) ∧
    ((Cpu.adc m c (.immediate v)).1.registers.p.overflow = true ↔
        ((c.registers.a ^^^ v) ^^^ 0xFF) &&&
          (c.registers.a ^^^ (c.registers.a + v + cond c.registers.p.carry 1 0)) &&&
          0x80 ≠ 0) := by
  obtain ⟨ha, -, -, -, -⟩ := h
  have hs : (c.registers.a + v + cond c.registers.p.carry 1 0) % 65536 =
      c.registers.a + v + cond c.registers.p.carry 1 0 := by
    apply Nat.mod_eq_of_lt
    cases c.registers.p.carry <;> simp <;> omega
  unfold Cpu.adc
  dsimp only [AddressingMode.read, Registers.set_status_carry,
    Registers.set_status_zero, Registers.set_status_overflow,
    Registers.set_status_negative]
  rw [hs]
  refine ⟨rfl, by simp, by simp, ?_, ?_⟩
  · rw [and128_toNat ((c.registers.a + v + cond c.registers.p.carry 1 0) % 256)]
    cases ht : ((c.registers.a + v + cond c.registers.p.carry 1 0) % 256).testBit 7 <;>
      simp [ht]
  · rw [show ∀ x y : Nat, (x == y) = decide (x = y) from fun x y => rfl]
    simp only [decide_eq_true_iff]
    exact adc_overflow_formula c.registers.a v
      (c.registers.a + v + cond c.registers.p.carry 1 0)

/-- C6 witness: the ADC theorem instantiated at the dummy CPU (A=0, C=0) and
operand 0x40. -/
theorem C6_witness :
    (Cpu.adc DummyMapper Cpu.new_dummy (.immediate 0x40)).1.registers.a =
        (Cpu.new_dummy.registers.a + 0x40 +
          cond Cpu.new_dummy.registers.p.carry 1 0) % 256 ∧
    ((Cpu.adc DummyMapper Cpu.new_dummy (.immediate 0x40)).1.registers.p.carry
          = true ↔
        Cpu.new_dummy.registers.a + 0x40 +
          cond Cpu.new_dummy.registers.p.carry 1 0 > 0xFF) ∧
    ((Cpu.adc DummyMapper Cpu.new_dummy (.immediate 0x40)).1.registers.p.zero
          = true ↔
        (Cpu.new_dummy.registers.a + 0x40 +
          cond Cpu.new_dummy.registers.p.carry 1 0) % 256 = 0) ∧
    ((Cpu.adc DummyMapper Cpu.new_dummy (.immediate 0x40)).1.registers.p.negative
          = true ↔
        ((Cpu.new_dummy.registers.a + 0x40 +
          cond Cpu.new_dummy.registers.p.carry 1 0) % 256).testBit 7 = true) ∧
    ((Cpu.adc DummyMapper Cpu.new_dummy (.immediate 0x40)).1.registers.p.overflow
          = true ↔
        ((Cpu.new_dummy.registers.a ^^^ 0x40) ^^^ 0xFF) &&&
          (Cpu.new_dummy.registers.a ^^^
            (Cpu.new_dummy.registers.a + 0x40 +
              cond Cpu.new_dummy.registers.p.carry 1 0)) &&& 0x80 ≠ 0) :=
  C6_adc_flags DummyMapper Cpu.new_dummy (by decide) 0x40 (by decide)

/-- Router mirroring helper: below 0x2000 the selected sink only depends on
the address mod 0x0800. -/
theorem route_mirror (a : Nat) (h : a ≤ 0x1FFF) :
    Cpu.corresponding_address_space a =
      Cpu.corresponding_address_space (a % 0x800) := by
  simp only [Cpu.corresponding_address_space]
  rw [show a % 2048 % 256 = a % 256 from by omega,
      show a % 2048 % 2048 = a % 2048 from by omega,
      show a % 2048 / 256 % 256 = a / 256 % 256 % 8 from by omega]
  split_ifs <;> first | rfl | omega

/-- C7: for every address a ≤ 0x1FFF, `load(a)` returns the same byte as
`load(a mod 0x0800)` and `write(a, v)` produces exactly the same successor
state as `write(a mod 0x0800, v)`. -/
theorem C7_ram_mirroring (m : MapperOps μ) (c : Cpu μ) (a v : Nat)
    (h : a ≤ 0x1FFF) :
    Cpu.load m c a = Cpu.load m c (a % 0x800) ∧
    Cpu.write m c a v = Cpu.write m c (a % 0x800) v := by
  unfold Cpu.load Cpu.write
  rw [route_mirror a h]
  exact ⟨rfl, rfl⟩

/-- C7 witness: mirroring instantiated at address 0x0805 and value 0x2A on
the dummy CPU. -/
theorem C7_witness :
    Cpu.load DummyMapper Cpu.new_dummy 0x0805 =
        Cpu.load DummyMapper Cpu.new_dummy (0x0805 % 0x800) ∧
    Cpu.write DummyMapper Cpu.new_dummy 0x0805 0x2A =
        Cpu.write DummyMapper Cpu.new_dummy (0x0805 % 0x800) 0x2A :=
  C7_ram_mirroring DummyMapper Cpu.new_dummy 0x0805 0x2A (by decide)

/-- C8 counterexample: from the dummy CPU with PC=0x0200, carry clear,
opcode 0x90 at 0x0200 and operand 0x04 at 0x0201, the executed branch leaves
PC = 0x0206, not 0x0205 as the claim states. -/
theorem C8_counterexample :
    (Cpu.step DummyMapper cpuBccInput).1.registers.pc ≠ 0x0205 := by decide

/-- C8 (amended): from the dummy CPU with PC=0x0200, carry clear, opcode
0x90 at 0x0200 and operand 0x04 at 0x0201, the taken forward branch leaves
PC = 0x0206 (= 0x0202 after operand fetch, plus 4) and the instruction costs
exactly 3 cycles (base 2 plus 1 for the taken branch, no page cross). -/
theorem C8_bcc_taken_amended :
    (Cpu.step DummyMapper cpuBccInput).1.registers.pc = 0x0206 ∧
    (Cpu.step DummyMapper cpuBccInput).2 = 3 := by decide

/-- C9: unpacking the packed status byte restores the six live flags
(`set_byte (get_byte P) = P`), and executing PHP followed by PLP from any
well-formed CPU state restores all six live flags exactly. -/
theorem C9_status_roundtrip_php_plp :
    (∀ s : Status, Status.set_byte s.get_byte = s) ∧
    (∀ (ν : Type) (m : MapperOps ν) (c : Cpu ν), c.Wf →
      (Cpu.plp m (Cpu.php m c .implicit).1 .implicit).1.registers.p =
        c.registers.p) := by
  constructor
  · intro s
    rcases s with ⟨cc, zz, ii, dd, vv, nn⟩
    revert cc zz ii dd vv nn
    decide
  · intro ν m c h
    exact php_plp_restores m c h

/-- C9 witness: the PHP/PLP round trip instantiated at the concrete CPU with
every flag except I set. -/
theorem C9_witness :
    (Cpu.plp DummyMapper (Cpu.php DummyMapper cpuAllFlags .implicit).1
        .implicit).1.registers.p = cpuAllFlags.registers.p :=
  C9_status_roundtrip_php_plp.2 Unit DummyMapper cpuAllFlags (by decide)

/-- C10: every address a ≤ 0x1FFF resolves to exactly one of the zero-page,
stack-page or internal-RAM sinks; the router's `NullAddressSpace` fallback
arm is never selected in that range. -/
theorem C10_low_range_router_total (a : Nat) (h : a ≤ 0x1FFF) :
    Cpu.corresponding_address_space a = .zeroPage (a % 256) ∨
    Cpu.corresponding_address_space a = .stackPage (a % 256) ∨
    Cpu.corresponding_address_space a = .ram (a % 0x800 - 0x200) := by
  simp only [Cpu.corresponding_address_space]
  split_ifs <;>
    first
      | exact Or.inl rfl
      | exact Or.inr (Or.inl rfl)
      | exact Or.inr (Or.inr rfl)
      | (exfalso; omega)

/-- C10 witness: the routing disjunction instantiated at address 0x07FF. -/
theorem C10_witness :
    Cpu.corresponding_address_space 0x07FF = .zeroPage (0x07FF % 256) ∨
    Cpu.corresponding_address_space 0x07FF = .stackPage (0x07FF % 256) ∨
    Cpu.corresponding_address_space 0x07FF = .ram (0x07FF % 0x800 - 0x200) :=
  C10_low_range_router_total 0x07FF (by decide)

end NESquick
